import Mathlib

/-!
Verification of the desktop hook store of GetHooks (src/desktop_hook.c) and of the
snapshot diff engine specified in the design document.

The embedding below is a shallow model of src/desktop_hook.c.  Machine pointers are
modelled as natural numbers (addresses); the external feeds (the handle table, the
desktop directory, the thread directory, the readable desktop-heap memory and the
clock) are packaged into an `Externals` record that is passed to the refresh
function.  A per-desktop record array is modelled by its live prefix: the records at
indices `0 .. hook_count-1`; the source's `hook_count` is the length of that prefix
(the soft reset `hook_count = 0` truncates it to `[]`, an append pushes one record).

The refresh function `init_desktop_hook_store` can, besides returning, terminate the
process (`FAIL_IF` / `MSG_FATAL` + `exit(1)`) or fail to terminate: the `for` loops
at lines 272 and 310 of the source have the plain expression `item->next` as their
for-update (no assignment), so `item` never advances.  All three outcomes are made
explicit in the `RefreshResult` type: `fatal` and `diverge` carry the state of the
store at the moment the process exits, respectively at the moment the loop starts
repeating the same iteration forever.
-/

namespace GetHooks

/-- A HANDLEENTRY as copied from the shared handle table (the fields the source
reads: the header address `pHead`, the owning thread `pOwner`, the type tag `bType`,
the flags and the uniqueness counter). Addresses are naturals. -/
structure HANDLEENTRY where
  pHead : Nat
  pOwner : Nat
  bType : Nat
  bFlags : Nat
  wUniq : Nat
deriving DecidableEq

/-- A HOOK object as copied from a desktop heap (the fields the source copies and
the diff engine compares). -/
structure HOOK where
  Head_h : Nat
  pti : Nat
  pSelf : Nat
  phkNext : Nat
  iHook : Int
  offPfn : Nat
  flags : Nat
  ihmod : Int
  ptiHooked : Nat
deriving DecidableEq

/-- `struct hook`: one recorded hook: the copied handle entry, the copied HOOK
object, and the owner/origin/target thread lookups (each `none` when the thread
directory has no match -- a normal outcome). The thread identity is modelled as the
looked-up address' record id (a natural). -/
structure hook where
  entry : HANDLEENTRY
  object : HOOK
  owner : Option Nat
  origin : Option Nat
  target : Option Nat
deriving DecidableEq

/-- `struct desktop_item` (desktop directory descriptor): its identity (the
descriptor's address, since the source compares descriptors by pointer equality),
the desktop heap range `[pvDesktopBase, pvDesktopLimit)` and the heap-to-process
translation offset `pvClientDelta`. -/
structure desktop_item where
  id : Nat
  pvDesktopBase : Nat
  pvDesktopLimit : Nat
  pvClientDelta : Nat
deriving DecidableEq

/-- `struct desktop_hook_item`: one desktop's record collection. `hook` is the live
prefix of the record array (length = the source's `hook_count`); `hook_max` is the
allocated capacity (65535 for every item the source creates). -/
structure desktop_hook_item where
  desktop : desktop_item
  hook_max : Nat
  hook : List hook
deriving DecidableEq

/-- `struct desktop_hook_list` (the desktop hook store): the head..tail linked list
of desktop hook items, in insertion order, plus the last-successful-refresh
timestamp `init_time` (0 means not valid / mid-refresh). -/
structure desktop_hook_list where
  items : List desktop_hook_item
  init_time : Nat
deriving DecidableEq

/-- The external state read by one refresh: the global stores' init flags, the
parent snapshot's flags, the calling and designated thread ids, the desktop
directory, the handle table (`aheList[0 .. *pcHandleEntries)`), the readable
desktop-heap memory, the thread directory lookup `find_Win32ThreadInfo`, and the
wall clock (`GetSystemTimeAsFileTime`). -/
structure Externals where
  prog_init_time : Nat
  config_init_time : Nat
  desktops_init_time : Nat
  parent_present : Bool
  init_time_spi : Nat
  init_time_gui : Nat
  GetCurrentThreadId : Nat
  dwMainThreadId : Nat
  desktops : List desktop_item
  aheList : List HANDLEENTRY
  readHOOK : Nat → HOOK
  find_Win32ThreadInfo : Nat → Option Nat
  now : Nat

/-- Modelled from the spec: the handle type tag that marks hook objects (the header
defining TYPE_HOOK is not in src; the numeric value is immaterial, only the equality
test `entry.bType != TYPE_HOOK` matters). -/
def TYPE_HOOK : Nat := 5

/-- `compare_hook` (src/desktop_hook.c:189-204): the qsort callback comparing two
hook records by the kernel address `entry.pHead`. -/
def compare_hook (a b : hook) : Int :=
  if a.entry.pHead < b.entry.pHead then -1
  else if a.entry.pHead > b.entry.pHead then 1
  else 0

/-- `add_desktop_hook_item` (src/desktop_hook.c:137-174).  The list is scanned head
to tail and the first item with the same desktop (pointer equality on the
descriptor) is returned; otherwise a fresh item is created with `hook_max = 65535`
and a calloc'd record array (live prefix `[]`).  Note that the source, as given,
returns the freshly created item without linking it into the store's list (there is
no append code between the calloc at line 170 and the `return item` at line 173), so
the function never changes the list; the model therefore returns only the item. -/
def add_desktop_hook_item : List desktop_hook_item → desktop_item → desktop_hook_item
  | [], d => { desktop := d, hook_max := 65535, hook := [] }
  | it :: rest, d => if it.desktop = d then it else add_desktop_hook_item rest d

/-- Outcome of one of refresh's internal loops over the store's item list: the
process exits (`fatal`), the loop repeats one iteration forever (`diverge`), or the
loop finishes (`ok`); each constructor carries the item list at that moment. -/
inductive FatalKind where
  | precond
  | capacity
  | dup_pHead
  | invalid_pHead
deriving DecidableEq

inductive StepRes where
  | fatal (k : FatalKind) (items : List desktop_hook_item)
  | diverge (items : List desktop_hook_item)
  | ok (items : List desktop_hook_item)
deriving DecidableEq

/-- Building one hook record (src/desktop_hook.c:283-296): copy the handle entry,
copy the HOOK object from the translated address `pHead - pvClientDelta`, and
resolve owner/origin/target through the thread directory. -/
def mk_hook (E : Externals) (it : desktop_hook_item) (e : HANDLEENTRY) : hook :=
  let obj := E.readHOOK (e.pHead - it.desktop.pvClientDelta)
  { entry := e
    object := obj
    owner := E.find_Win32ThreadInfo e.pOwner
    origin := E.find_Win32ThreadInfo obj.pti
    target := E.find_Win32ThreadInfo obj.ptiHooked }

/-- The handle-table scan (src/desktop_hook.c:260-306).  Non-hook entries are
skipped.  For a hook entry the desktop-attribution loop at line 272 is
`for( item = store->head; item; item->next )`: its for-update expression is
`item->next`, not `item = item->next`, so `item` never advances -- the loop tests
the first item's heap range and either breaks on it, exits at once when the list is
empty (`item == NULL`, hook skipped), or repeats the same test forever (`diverge`).
On a break the record is appended at index `hook_count`, the count is incremented,
and `hook_count >= hook_max` afterwards is fatal (lines 298-305). -/
def scanLoop (E : Externals) : List desktop_hook_item → List HANDLEENTRY → StepRes
  | items, [] => .ok items
  | items, e :: es =>
    if e.bType ≠ TYPE_HOOK then
      scanLoop E items es
    else
      match items with
      | [] => scanLoop E [] es
      | it0 :: rest =>
        if it0.desktop.pvDesktopBase ≤ e.pHead ∧ e.pHead < it0.desktop.pvDesktopLimit then
          if (it0.hook ++ [mk_hook E it0 e]).length ≥ it0.hook_max then
            .fatal .capacity ({ it0 with hook := it0.hook ++ [mk_hook E it0 e] } :: rest)
          else
            scanLoop E ({ it0 with hook := it0.hook ++ [mk_hook E it0 e] } :: rest) es
        else
          .diverge (it0 :: rest)

/-- The validation walk over one sorted record array
(src/desktop_hook.c:320-348): for i = 1 .. count-1, adjacent equal `pHead` is fatal
(duplicate), then a zero `pHead` in either slot of the pair is fatal (invalid). -/
def validateWalk : List hook → Option FatalKind
  | a :: b :: rest =>
    if a.entry.pHead = b.entry.pHead then some .dup_pHead
    else if a.entry.pHead = 0 then some .invalid_pHead
    else if b.entry.pHead = 0 then some .invalid_pHead
    else validateWalk (b :: rest)
  | _ => none

/-- The per-desktop sort-and-validate loop (src/desktop_hook.c:309-349).  The loop
header at line 310 is again `for( item = store->head; item; item->next )` with the
no-op for-update `item->next`: when the list is empty the loop finishes, and
otherwise the first item is sorted (qsort by `compare_hook`, modelled as insertion
sort by the same ordering) and validated -- a validation failure exits the process,
and success repeats the very same iteration forever (`diverge`). -/
def sortValidateLoop : List desktop_hook_item → StepRes
  | [] => .ok []
  | it0 :: rest =>
    let sorted := List.insertionSort (fun a b : hook => compare_hook a b ≤ 0) it0.hook
    let it0' : desktop_hook_item := { it0 with hook := sorted }
    match validateWalk sorted with
    | some k => .fatal k (it0' :: rest)
    | none => .diverge (it0' :: rest)

/-- The precondition checks of `init_desktop_hook_store`
(src/desktop_hook.c:223-231): the program, configuration and desktop stores must be
initialized, the parent snapshot must be passed and its spi and gui arrays
initialized, and the caller must be the designated main thread. -/
def precond_ok (E : Externals) : Bool :=
  (E.prog_init_time != 0) && (E.config_init_time != 0) && (E.desktops_init_time != 0)
    && E.parent_present && (E.init_time_spi != 0) && (E.init_time_gui != 0)
    && (E.GetCurrentThreadId == E.dwMainThreadId)

/-- Result of one refresh: the process exits (`fatal`), the refresh never returns
(`diverge`), or it returns nonzero (`ok`); each carries the store at that moment. -/
inductive RefreshResult where
  | fatal (k : FatalKind) (s : desktop_hook_list)
  | diverge (s : desktop_hook_list)
  | ok (s : desktop_hook_list)
deriving DecidableEq

/-- `init_desktop_hook_store` (src/desktop_hook.c:216-355).  After the precondition
checks (which run before the store is touched), `init_time` is cleared; then, if the
store has no items yet, the source iterates the desktop directory calling
`add_desktop_hook_item( store->desktop_hooks, current )` -- but `desktop_hooks` is
not a member of `struct desktop_hook_list` (the store's own list is head/tail), the
intended argument being `store` itself, and `add_desktop_hook_item` as given never
links the created item into any list, so the store's item list is left unchanged by
this branch; otherwise each existing item's count is reset to zero (live prefix
truncated).  The handle table is then scanned (`scanLoop`), each desktop's records
are sorted and validated (`sortValidateLoop`), and only on full success is
`init_time` set to the current time. -/
def init_desktop_hook_store (E : Externals) (store : desktop_hook_list) : RefreshResult :=
  if precond_ok E = false then
    .fatal .precond store
  else
    let s1 : desktop_hook_list := { store with init_time := 0 }
    let items1 :=
      match s1.items with
      | [] => ([] : List desktop_hook_item)
      | its => its.map (fun it => { it with hook := ([] : List hook) })
    match scanLoop E items1 E.aheList with
    | .fatal k its => .fatal k { s1 with items := its }
    | .diverge its => .diverge { s1 with items := its }
    | .ok its =>
      match sortValidateLoop its with
      | .fatal k its2 => .fatal k { s1 with items := its2 }
      | .diverge its2 => .diverge { s1 with items := its2 }
      | .ok its2 => .ok { items := its2, init_time := E.now }

/-- Modelled from the spec: the diff engine's field comparison (spec section 4.2).
The diff functions are declared in src/diff.h but defined in gethooks.c, which is
not under src, so the engine is modelled from the spec's words: the non-identity
fields compared are the hook type index, callback offset, flags, module index, and
the owner/origin/target resolved identities. -/
def fieldsEqual (a b : hook) : Bool :=
  (a.object.iHook == b.object.iHook) && (a.object.offPfn == b.object.offPfn)
    && (a.object.flags == b.object.flags) && (a.object.ihmod == b.object.ihmod)
    && (a.owner == b.owner) && (a.origin == b.origin) && (a.target == b.target)

/-- A change event produced by the diff engine (src/diff.h:40, `enum difftype`:
HOOK_ADDED, HOOK_MODIFIED, HOOK_REMOVED); `modified` carries the before (from the
earlier store A) and after (from the later store B) records. -/
inductive diffEvent where
  | added (b : hook)
  | removed (a : hook)
  | modified (a b : hook)
deriving DecidableEq

/-- The identity key an event is about (the header address of its record). -/
def eventKey : diffEvent → Nat
  | .added b => b.entry.pHead
  | .removed a => a.entry.pHead
  | .modified a _ => a.entry.pHead

/-- Modelled from the spec: the per-desktop sorted-merge reconciliation of the diff
engine (spec section 4.2), over A's and B's sorted record sequences: a key only in B
emits Added, a key only in A emits Removed, a key in both emits Modified exactly
when some non-identity field differs. -/
def diff_hooks : List hook → List hook → List diffEvent
  | [], [] => []
  | [], b :: tb => .added b :: diff_hooks [] tb
  | a :: ta, [] => .removed a :: diff_hooks ta []
  | a :: ta, b :: tb =>
    if a.entry.pHead < b.entry.pHead then
      .removed a :: diff_hooks ta (b :: tb)
    else if b.entry.pHead < a.entry.pHead then
      .added b :: diff_hooks (a :: ta) tb
    else if fieldsEqual a b then
      diff_hooks ta tb
    else
      .modified a b :: diff_hooks ta tb
termination_by A B => A.length + B.length
decreasing_by all_goals simp_arith

/-- Strict ascending order of two hook records by identity key. -/
def hkLT (x y : hook) : Prop := x.entry.pHead < y.entry.pHead

instance : DecidableRel hkLT := fun a b =>
  inferInstanceAs (Decidable (a.entry.pHead < b.entry.pHead))

/- Concrete fixtures used by the evaluation, counterexample and witness theorems. -/

/-- A desktop with heap range [100, 200) and translation offset 10. -/
def dA : desktop_item := { id := 1, pvDesktopBase := 100, pvDesktopLimit := 200, pvClientDelta := 10 }

/-- A desktop with heap range [200, 300) and translation offset 20. -/
def dB : desktop_item := { id := 2, pvDesktopBase := 200, pvDesktopLimit := 300, pvClientDelta := 20 }

/-- The all-zero HOOK object (what the fixture heap contains everywhere). -/
def HOOK0 : HOOK :=
  { Head_h := 0, pti := 0, pSelf := 0, phkNext := 0, iHook := 0,
    offPfn := 0, flags := 0, ihmod := 0, ptiHooked := 0 }

/-- Baseline externals: every precondition satisfied, empty desktop directory and
handle table, all-zero heap, empty thread directory, clock reading 7. -/
def baseE : Externals :=
  { prog_init_time := 1, config_init_time := 1, desktops_init_time := 1,
    parent_present := true, init_time_spi := 1, init_time_gui := 1,
    GetCurrentThreadId := 1, dwMainThreadId := 1,
    desktops := [], aheList := [],
    readHOOK := fun _ => HOOK0, find_Win32ThreadInfo := fun _ => none, now := 7 }

/-- A hook-typed handle entry with header address 150 (inside dA's heap). -/
def e150 : HANDLEENTRY := { pHead := 150, pOwner := 0, bType := TYPE_HOOK, bFlags := 0, wUniq := 0 }

/-- A second hook-typed handle entry with the same header address 150. -/
def e150b : HANDLEENTRY := { pHead := 150, pOwner := 0, bType := TYPE_HOOK, bFlags := 0, wUniq := 1 }

/-- A hook-typed handle entry with header address 250 (inside dB's heap, outside dA's). -/
def e250 : HANDLEENTRY := { pHead := 250, pOwner := 0, bType := TYPE_HOOK, bFlags := 0, wUniq := 0 }

/-- A hook-typed handle entry with header address 50 (outside every fixture desktop's heap). -/
def e50 : HANDLEENTRY := { pHead := 50, pOwner := 0, bType := TYPE_HOOK, bFlags := 0, wUniq := 0 }

/-- The record the scan builds for e150 on dA under `baseE`. -/
def hk150 : hook := { entry := e150, object := HOOK0, owner := none, origin := none, target := none }

/-- The record the scan builds for e150b on dA under `baseE`. -/
def hk150b : hook := { entry := e150b, object := HOOK0, owner := none, origin := none, target := none }

/- ------------------------------------------------------------------ -/
/- Claim theorems                                                      -/
/- ------------------------------------------------------------------ -/

/-- Claim C1 (code bug): a refresh of a store holding one desktop entry, with one
hook in that desktop's heap range, never completes: after scanning and sorting the
single entry the sort loop repeats its first iteration forever (the for-update at
src/desktop_hook.c:310 is the no-op `item->next`), so the claimed postcondition
(refresh completes with every entry strictly ascending) is unreachable for any store
with at least one entry. The evaluation exhibits the divergence at a concrete
input. -/
theorem c1_sort_loop_never_advances :
    init_desktop_hook_store { baseE with aheList := [e150] }
        { items := [{ desktop := dA, hook_max := 65535, hook := [] }], init_time := 0 }
      = .diverge { items := [{ desktop := dA, hook_max := 65535, hook := [hk150] }],
                   init_time := 0 } := by
  decide

/-- Claim C2 (code bug): on the first refresh of an empty store with one desktop in
the directory, no entry is created in the store: the source passes
`store->desktop_hooks` (not a member of `struct desktop_hook_list`; the intended
argument is `store`) to `add_desktop_hook_item`, which in any case never links the
new item into a list, so the refresh completes with an empty entry list instead of
one entry per desktop. -/
theorem c2_first_build_adds_no_entries :
    init_desktop_hook_store { baseE with desktops := [dA] } { items := [], init_time := 3 }
      = .ok { items := [], init_time := 7 } := by
  decide

/-- Claim C3 (code bug): a handle table with two hook entries sharing header
address 250, both in the second desktop's heap range, does not make refresh
terminate fatally: the attribution loop (src/desktop_hook.c:272) never advances past
the first desktop entry (its for-update is the no-op `item->next`), so refresh
loops forever on the first such hook and the duplicate check is never reached. -/
theorem c3_duplicate_on_second_desktop_diverges :
    init_desktop_hook_store { baseE with aheList := [e250, e250] }
        { items := [{ desktop := dA, hook_max := 65535, hook := [] },
                    { desktop := dB, hook_max := 65535, hook := [] }], init_time := 0 }
      = .diverge { items := [{ desktop := dA, hook_max := 65535, hook := [] },
                             { desktop := dB, hook_max := 65535, hook := [] }],
                   init_time := 0 } := by
  decide

/-- Claim C5 (code bug): a hook whose header address (50) lies outside every known
desktop's heap range is not silently skipped: the attribution loop
(src/desktop_hook.c:272) repeats its test of the first entry forever instead of
advancing and falling off the list, so the refresh neither skips the hook nor
completes. -/
theorem c5_out_of_range_hook_diverges :
    init_desktop_hook_store { baseE with aheList := [e50] }
        { items := [{ desktop := dA, hook_max := 65535, hook := [] }], init_time := 0 }
      = .diverge { items := [{ desktop := dA, hook_max := 65535, hook := [] }],
                   init_time := 0 } := by
  decide

/-- Helper: scanning with an empty item list skips every handle entry (the
attribution loop starts at a null head, so `item` is null and the hook is skipped). -/
theorem scanLoop_nil (E : Externals) (es : List HANDLEENTRY) :
    scanLoop E [] es = .ok [] := by
  induction es with
  | nil => rfl
  | cons e es ih => simp [scanLoop, ih]

/-- Helper: if the scan finishes on a nonempty item list, only the first item can
have changed (the attribution loop never advances), and the list stays a cons with
the same tail. -/
theorem scanLoop_cons_ok (E : Externals) :
    ∀ (es : List HANDLEENTRY) (it0 : desktop_hook_item) (rest out : List desktop_hook_item),
      scanLoop E (it0 :: rest) es = .ok out → ∃ it0', out = it0' :: rest := by
  intro es
  induction es with
  | nil =>
    intro it0 rest out h
    simp only [scanLoop] at h
    exact ⟨it0, by cases h; rfl⟩
  | cons e es ih =>
    intro it0 rest out h
    rw [scanLoop] at h
    split at h
    · exact ih it0 rest out h
    · split at h
      · split at h
        · cases h
        · exact ih _ rest out h
      · cases h


/-- Helper: the only refreshes that return at all return an empty store stamped
with the current time: a nonempty item list makes the sort loop (or the attribution
loop) repeat forever, so `.ok` is reachable only through the empty list. -/
theorem refresh_ok_empty (E : Externals) (s s' : desktop_hook_list)
    (h : init_desktop_hook_store E s = .ok s') :
    s' = { items := [], init_time := E.now } := by
  unfold init_desktop_hook_store at h
  split at h
  · cases h
  · cases hs : s.items with
    | nil =>
      rw [hs] at h
      simp [scanLoop_nil, sortValidateLoop] at h
      exact h.symm
    | cons a l =>
      rw [hs] at h
      simp only [List.map_cons] at h
      split at h
      · cases h
      · cases h
      · rename_i its heq
        rcases scanLoop_cons_ok E E.aheList _ _ its heq with ⟨it0', rfl⟩
        simp only [sortValidateLoop] at h
        split at h
        · cases h
        · cases h
        · rename_i its2 hval
          split at hval
          · cases hval
          · cases hval

/-- Claim C7, counterexample: a precondition fatal can terminate the process while
`init_time` is nonzero.  The precondition checks (src/desktop_hook.c:223-231) run
before the clear at line 237, so a refresh called from the wrong thread on a store
whose previous refresh succeeded (init_time = 5) exits with init_time still 5,
contradicting the claim that every fatal path terminates while init_time is zero. -/
theorem c7_precond_fatal_keeps_init_time :
    init_desktop_hook_store { baseE with GetCurrentThreadId := 2 }
        { items := [], init_time := 5 }
      = .fatal .precond { items := [], init_time := 5 } ∧ (5 : Nat) ≠ 0 := by
  decide

/-- Helper: one scan step appending a record that brings the count up to (or past)
`hook_max` takes the fatal branch of src/desktop_hook.c:299-305. -/
theorem scanLoop_step_fatal (E : Externals) (it0 : desktop_hook_item)
    (rest : List desktop_hook_item) (e : HANDLEENTRY) (es : List HANDLEENTRY)
    (htype : e.bType = TYPE_HOOK)
    (hlo : it0.desktop.pvDesktopBase ≤ e.pHead)
    (hhi : e.pHead < it0.desktop.pvDesktopLimit)
    (hcap : it0.hook.length + 1 ≥ it0.hook_max) :
    scanLoop E (it0 :: rest) (e :: es)
      = .fatal .capacity ({ it0 with hook := it0.hook ++ [mk_hook E it0 e] } :: rest) := by
  rw [scanLoop]
  rw [if_neg (by simp [htype])]
  rw [if_pos ⟨hlo, hhi⟩]
  rw [if_pos (by simpa using hcap)]

/-- Helper: one scan step appending a record while the count stays below
`hook_max` continues scanning with the record stored in place. -/
theorem scanLoop_step_append (E : Externals) (it0 : desktop_hook_item)
    (rest : List desktop_hook_item) (e : HANDLEENTRY) (es : List HANDLEENTRY)
    (htype : e.bType = TYPE_HOOK)
    (hlo : it0.desktop.pvDesktopBase ≤ e.pHead)
    (hhi : e.pHead < it0.desktop.pvDesktopLimit)
    (hcap : it0.hook.length + 1 < it0.hook_max) :
    scanLoop E (it0 :: rest) (e :: es)
      = scanLoop E ({ it0 with hook := it0.hook ++ [mk_hook E it0 e] } :: rest) es := by
  rw [scanLoop]
  rw [if_neg (by simp [htype])]
  rw [if_pos ⟨hlo, hhi⟩]
  rw [if_neg (by simp only [List.length_append, List.length_cons, List.length_nil]; omega)]

/-- 65534 already-appended records (all with header address 150; only the count
matters to the capacity check). -/
def bigHooks : List hook := List.replicate 65534 hk150

theorem bigHooks_length : bigHooks.length = 65534 := by
  rw [bigHooks, List.length_replicate]

/-- Claim C6, counterexample: the append of a 65535th record to a desktop entry is
fatal even though 65535 records do not exceed the capacity of 65535: the check at
src/desktop_hook.c:299 is `hook_count >= hook_max` after the increment, so it fires
as soon as the array is exactly full, contradicting the claim that appends under
the capacity succeed. -/
theorem c6_fatal_at_capacity_not_exceeding :
    scanLoop baseE
        [{ desktop := dA, hook_max := 65535, hook := bigHooks }] [e150]
      = .fatal .capacity
          [{ desktop := dA, hook_max := 65535,
             hook := bigHooks
               ++ [mk_hook baseE
                     { desktop := dA, hook_max := 65535, hook := bigHooks }
                     e150] }]
    ∧ bigHooks.length + 1 ≤ 65535 := by
  constructor
  · exact scanLoop_step_fatal baseE
      { desktop := dA, hook_max := 65535, hook := bigHooks } [] e150 []
      (by decide) (by decide) (by decide)
      (by rw [show ({ desktop := dA, hook_max := 65535, hook := bigHooks } :
            desktop_hook_item).hook = bigHooks from rfl, bigHooks_length])
  · rw [bigHooks_length]

/-- Claim C6, amended: when a hook entry is attributed to the first desktop entry,
the record is appended in place (the item keeps its allocated capacity `hook_max`;
only the live prefix grows, no reallocation), and the append is fatal exactly when
the new count reaches `hook_max` (65535 for every entry the store creates) -- so at
most 65534 records are usable per desktop; below that bound the scan continues. -/
theorem c6_append_capacity_amended (E : Externals) (it0 : desktop_hook_item)
    (rest : List desktop_hook_item) (e : HANDLEENTRY) (es : List HANDLEENTRY)
    (htype : e.bType = TYPE_HOOK)
    (hlo : it0.desktop.pvDesktopBase ≤ e.pHead)
    (hhi : e.pHead < it0.desktop.pvDesktopLimit) :
    (it0.hook.length + 1 ≥ it0.hook_max →
      scanLoop E (it0 :: rest) (e :: es)
        = .fatal .capacity ({ it0 with hook := it0.hook ++ [mk_hook E it0 e] } :: rest)) ∧
    (it0.hook.length + 1 < it0.hook_max →
      scanLoop E (it0 :: rest) (e :: es)
        = scanLoop E ({ it0 with hook := it0.hook ++ [mk_hook E it0 e] } :: rest) es) :=
  ⟨fun hcap => scanLoop_step_fatal E it0 rest e es htype hlo hhi hcap,
   fun hcap => scanLoop_step_append E it0 rest e es htype hlo hhi hcap⟩

/-- Claim C6, witness for the amended theorem: appending the first record to an
empty entry (capacity 65535) is below the bound and the scan continues in place. -/
theorem c6_append_capacity_amended_witness :
    (e150.bType = TYPE_HOOK
      ∧ dA.pvDesktopBase ≤ e150.pHead ∧ e150.pHead < dA.pvDesktopLimit
      ∧ ({ desktop := dA, hook_max := 65535, hook := [] } : desktop_hook_item).hook.length + 1
          < 65535)
    ∧ scanLoop baseE [{ desktop := dA, hook_max := 65535, hook := ([] : List hook) }] [e150]
        = scanLoop baseE
            [{ desktop := dA, hook_max := 65535,
               hook := [mk_hook baseE
                          { desktop := dA, hook_max := 65535, hook := ([] : List hook) } e150] }]
            [] := by
  refine ⟨by decide, ?_⟩
  exact (c6_append_capacity_amended baseE
    { desktop := dA, hook_max := 65535, hook := ([] : List hook) } [] e150 []
    (by decide) (by decide) (by decide)).2 (by decide)

/-- Claim C7, amended: the precondition checks run before the store is touched, so
a precondition fatal terminates with `init_time` still holding its previous value;
after the initial clear, every fatal and every non-returning path leaves
`init_time` zero, and `init_time` is set to the clock reading only on a fully
successful refresh. -/
theorem c7_init_time_discipline_amended (E : Externals) (s : desktop_hook_list) :
    (precond_ok E = false → init_desktop_hook_store E s = .fatal .precond s) ∧
    (∀ s', init_desktop_hook_store E s = .ok s' → s'.init_time = E.now) ∧
    (∀ k s', precond_ok E = true → init_desktop_hook_store E s = .fatal k s' →
      s'.init_time = 0) ∧
    (∀ s', init_desktop_hook_store E s = .diverge s' → s'.init_time = 0) := by
  refine ⟨fun hpre => by simp [init_desktop_hook_store, hpre], ?_, ?_, ?_⟩
  · intro s' h
    rw [refresh_ok_empty E s s' h]
  · intro k s' hpre h
    unfold init_desktop_hook_store at h
    rw [if_neg (by simp [hpre])] at h
    dsimp only at h
    split at h
    · cases h; rfl
    · cases h
    · split at h
      · cases h; rfl
      · cases h
      · cases h
  · intro s' h
    unfold init_desktop_hook_store at h
    split at h
    · cases h
    · dsimp only at h
      split at h
      · cases h
      · cases h; rfl
      · split at h
        · cases h
        · cases h; rfl
        · cases h

/-- Claim C7, witness: a refresh that hits the duplicate-pHead fatal (two hooks
with header address 150 on the first desktop) exits with `init_time` zero. -/
theorem c7_init_time_discipline_amended_witness :
    precond_ok { baseE with aheList := [e150, e150b] } = true
    ∧ init_desktop_hook_store { baseE with aheList := [e150, e150b] }
        { items := [{ desktop := dA, hook_max := 65535, hook := [] }], init_time := 9 }
      = .fatal .dup_pHead
          { items := [{ desktop := dA, hook_max := 65535, hook := [hk150, hk150b] }],
            init_time := 0 }
    ∧ ({ items := [{ desktop := dA, hook_max := 65535, hook := [hk150, hk150b] }],
         init_time := 0 } : desktop_hook_list).init_time = 0 := by
  refine ⟨by decide, by decide, ?_⟩
  exact (c7_init_time_discipline_amended { baseE with aheList := [e150, e150b] }
      { items := [{ desktop := dA, hook_max := 65535, hook := [] }], init_time := 9 }).2.2.1
    .dup_pHead _ (by decide) (by decide)

/-- Claim C8: refreshing twice in succession against the same external state gives
the same store both times (entries, key sequences and fields included).  Note that
because of the slips reported under C1, C2 and C5, the only refreshes that complete
at all leave the entry list empty, so the two results are identical trivially. -/
theorem c8_refresh_idempotent (E : Externals) (s s1 s2 : desktop_hook_list)
    (h1 : init_desktop_hook_store E s = .ok s1)
    (h2 : init_desktop_hook_store E s1 = .ok s2) :
    s1 = s2 := by
  rw [refresh_ok_empty E s s1 h1, refresh_ok_empty E s1 s2 h2]

/-- Claim C8, witness: two successive refreshes of an empty store under the
baseline externals both return the store stamped with time 7. -/
theorem c8_refresh_idempotent_witness :
    init_desktop_hook_store baseE { items := [], init_time := 0 }
      = .ok { items := [], init_time := 7 }
    ∧ init_desktop_hook_store baseE { items := [], init_time := 7 }
      = .ok { items := [], init_time := 7 }
    ∧ ({ items := [], init_time := 7 } : desktop_hook_list)
      = { items := [], init_time := 7 } := by
  refine ⟨by decide, by decide, ?_⟩
  exact c8_refresh_idempotent baseE { items := [], init_time := 0 } _ _ (by decide) (by decide)

/-- Claim C9: whenever any precondition is violated (program, configuration or
desktop store uninitialized; parent snapshot missing or its spi/gui arrays
uninitialized; wrong calling thread), refresh exits fatally with the store -- and in
particular every record -- untouched. -/
theorem c9_precond_fatal_before_mutation (E : Externals) (s : desktop_hook_list)
    (h : precond_ok E = false) :
    init_desktop_hook_store E s = .fatal .precond s := by
  simp [init_desktop_hook_store, h]

/-- Claim C9, witness: with the program store uninitialized, refresh exits fatally
and returns the store unchanged. -/
theorem c9_precond_fatal_before_mutation_witness :
    precond_ok { baseE with prog_init_time := 0 } = false
    ∧ init_desktop_hook_store { baseE with prog_init_time := 0 }
        { items := [{ desktop := dB, hook_max := 65535, hook := [hk150] }], init_time := 2 }
      = .fatal .precond
          { items := [{ desktop := dB, hook_max := 65535, hook := [hk150] }], init_time := 2 } := by
  exact ⟨by decide, c9_precond_fatal_before_mutation _ _ (by decide)⟩

/-- Claim C10: `add_desktop_hook_item` is idempotent per desktop: it returns the
first existing item whose desktop is the given descriptor when one exists (the
list is not modified -- the model's list-in, item-out shape reflects that the
function never writes to the list), and otherwise a fresh item with capacity
65535, count 0 and a calloc'd (empty live prefix) record array. -/
theorem c10_add_item_idempotent (items : List desktop_hook_item) (d : desktop_item) :
    add_desktop_hook_item items d
      = (items.find? (fun it => it.desktop == d)).getD
          { desktop := d, hook_max := 65535, hook := [] } := by
  induction items with
  | nil => rfl
  | cons it rest ih =>
    by_cases h : it.desktop = d <;> simp [add_desktop_hook_item, List.find?_cons, h, ih]

/-- Helper: a list whose keys all exceed `k` holds no record with key `k`. -/
theorem find?_key_none (l : List hook) (k : Nat) (h : ∀ y ∈ l, k < y.entry.pHead) :
    l.find? (fun y => y.entry.pHead == k) = none := by
  rw [List.find?_eq_none]
  intro x hx
  simp only [beq_iff_eq]
  intro he
  exact absurd (he ▸ h x hx) (lt_irrefl k)

/-- Claim C4: the sorted-merge diff classifies every identity key as the spec
says: over strictly-ascending record sequences A (earlier) and B (later), the
events concerning key `k` are exactly one Added event for the record of B when
`k` occurs only in B, exactly one Removed event for the record of A when `k`
occurs only in A, exactly one Modified event carrying the before and after records
when `k` occurs in both and some compared field differs, and no event when `k`
occurs in both with all compared fields equal (or occurs in neither). -/
theorem c4_diff_classification :
    ∀ (A B : List hook), List.Pairwise hkLT A → List.Pairwise hkLT B → ∀ k : Nat,
      (diff_hooks A B).filter (fun ev => eventKey ev == k)
        = match A.find? (fun x => x.entry.pHead == k),
                B.find? (fun x => x.entry.pHead == k) with
          | none, none => []
          | none, some b => [.added b]
          | some a, none => [.removed a]
          | some a, some b => if fieldsEqual a b then [] else [.modified a b] := by
  intro A B
  induction A, B using diff_hooks.induct with
  | case1 =>
    intro _ _ k
    simp [diff_hooks]
  | case2 b tb ih =>
    intro hA hB k
    rw [List.pairwise_cons] at hB
    obtain ⟨hball, htb⟩ := hB
    have ihk := ih hA htb k
    simp only [List.find?_nil] at ihk
    rw [diff_hooks]
    by_cases hk : b.entry.pHead = k
    · have htb_none : tb.find? (fun y => y.entry.pHead == k) = none :=
        find?_key_none tb k
          (fun y hy => hk ▸ (hball y hy : b.entry.pHead < y.entry.pHead))
      have hhead : (eventKey (diffEvent.added b) == k) = true := by simp [eventKey, hk]
      simp only [htb_none] at ihk
      simp [List.filter_cons, hhead, List.find?_cons, hk, ihk]
    · have hhead : (eventKey (diffEvent.added b) == k) = false := by simp [eventKey, hk]
      simp [List.filter_cons, hhead, List.find?_cons, hk, ihk]
  | case3 a ta ih =>
    intro hA hB k
    rw [List.pairwise_cons] at hA
    obtain ⟨haall, hta⟩ := hA
    have ihk := ih hta hB k
    simp only [List.find?_nil] at ihk
    rw [diff_hooks]
    by_cases hk : a.entry.pHead = k
    · have hta_none : ta.find? (fun y => y.entry.pHead == k) = none :=
        find?_key_none ta k
          (fun y hy => hk ▸ (haall y hy : a.entry.pHead < y.entry.pHead))
      have hhead : (eventKey (diffEvent.removed a) == k) = true := by simp [eventKey, hk]
      simp only [hta_none] at ihk
      simp [List.filter_cons, hhead, List.find?_cons, hk, ihk]
    · have hhead : (eventKey (diffEvent.removed a) == k) = false := by simp [eventKey, hk]
      simp [List.filter_cons, hhead, List.find?_cons, hk, ihk]
  | case4 a ta b tb hlt ih =>
    intro hA hB k
    rw [List.pairwise_cons] at hA
    obtain ⟨haall, hta⟩ := hA
    have ihk := ih hta hB k
    rw [diff_hooks, if_pos hlt]
    by_cases hk : a.entry.pHead = k
    · have hta_none : ta.find? (fun y => y.entry.pHead == k) = none :=
        find?_key_none ta k
          (fun y hy => hk ▸ (haall y hy : a.entry.pHead < y.entry.pHead))
      have hB_none : (b :: tb).find? (fun y => y.entry.pHead == k) = none := by
        apply find?_key_none
        intro y hy
        rcases List.mem_cons.1 hy with rfl | hy'
        · exact hk ▸ hlt
        · have h1 : b.entry.pHead < y.entry.pHead := (List.pairwise_cons.1 hB).1 y hy'
          have h2 : k < b.entry.pHead := hk ▸ hlt
          omega
      have hhead : (eventKey (diffEvent.removed a) == k) = true := by simp [eventKey, hk]
      simp only [hta_none, hB_none] at ihk
      simp [List.filter_cons, hhead, List.find?_cons, hk, hB_none, ihk]
    · have hhead : (eventKey (diffEvent.removed a) == k) = false := by simp [eventKey, hk]
      simp [List.filter_cons, hhead, List.find?_cons, hk, ihk]
  | case5 a ta b tb hnlt hlt ih =>
    intro hA hB k
    rw [List.pairwise_cons] at hB
    obtain ⟨hball, htb⟩ := hB
    have ihk := ih hA htb k
    rw [diff_hooks, if_neg hnlt, if_pos hlt]
    by_cases hk : b.entry.pHead = k
    · have htb_none : tb.find? (fun y => y.entry.pHead == k) = none :=
        find?_key_none tb k
          (fun y hy => hk ▸ (hball y hy : b.entry.pHead < y.entry.pHead))
      have hA_none : (a :: ta).find? (fun y => y.entry.pHead == k) = none := by
        apply find?_key_none
        intro y hy
        rcases List.mem_cons.1 hy with rfl | hy'
        · exact hk ▸ hlt
        · have h1 : a.entry.pHead < y.entry.pHead := (List.pairwise_cons.1 hA).1 y hy'
          have h2 : k < a.entry.pHead := hk ▸ hlt
          omega
      have hhead : (eventKey (diffEvent.added b) == k) = true := by simp [eventKey, hk]
      simp only [htb_none, hA_none] at ihk
      simp [List.filter_cons, hhead, List.find?_cons, hk, hA_none, ihk]
    · have hhead : (eventKey (diffEvent.added b) == k) = false := by simp [eventKey, hk]
      simp [List.filter_cons, hhead, List.find?_cons, hk, ihk]
  | case6 a ta b tb hnlt1 hnlt2 hfe ih =>
    intro hA hB k
    rw [List.pairwise_cons] at hA hB
    obtain ⟨haall, hta⟩ := hA
    obtain ⟨hball, htb⟩ := hB
    have heq : a.entry.pHead = b.entry.pHead := by omega
    have ihk := ih hta htb k
    rw [diff_hooks, if_neg hnlt1, if_neg hnlt2, if_pos hfe]
    by_cases hk : a.entry.pHead = k
    · have hbk : b.entry.pHead = k := heq ▸ hk
      have hta_none : ta.find? (fun y => y.entry.pHead == k) = none :=
        find?_key_none ta k
          (fun y hy => hk ▸ (haall y hy : a.entry.pHead < y.entry.pHead))
      have htb_none : tb.find? (fun y => y.entry.pHead == k) = none :=
        find?_key_none tb k
          (fun y hy => hbk ▸ (hball y hy : b.entry.pHead < y.entry.pHead))
      simp only [hta_none, htb_none] at ihk
      simp [List.find?_cons, hk, hbk, hfe, ihk]
    · have hbk : ¬ b.entry.pHead = k := heq ▸ hk
      simp [List.find?_cons, hk, hbk, ihk]
  | case7 a ta b tb hnlt1 hnlt2 hfe ih =>
    intro hA hB k
    rw [List.pairwise_cons] at hA hB
    obtain ⟨haall, hta⟩ := hA
    obtain ⟨hball, htb⟩ := hB
    have heq : a.entry.pHead = b.entry.pHead := by omega
    have ihk := ih hta htb k
    rw [diff_hooks, if_neg hnlt1, if_neg hnlt2, if_neg hfe]
    by_cases hk : a.entry.pHead = k
    · have hbk : b.entry.pHead = k := heq ▸ hk
      have hta_none : ta.find? (fun y => y.entry.pHead == k) = none :=
        find?_key_none ta k
          (fun y hy => hk ▸ (haall y hy : a.entry.pHead < y.entry.pHead))
      have htb_none : tb.find? (fun y => y.entry.pHead == k) = none :=
        find?_key_none tb k
          (fun y hy => hbk ▸ (hball y hy : b.entry.pHead < y.entry.pHead))
      have hhead : (eventKey (diffEvent.modified a b) == k) = true := by simp [eventKey, hk]
      simp only [hta_none, htb_none] at ihk
      simp [List.filter_cons, hhead, List.find?_cons, hk, hbk, hfe, ihk]
    · have hbk : ¬ b.entry.pHead = k := heq ▸ hk
      have hhead : (eventKey (diffEvent.modified a b) == k) = false := by simp [eventKey, hk]
      simp [List.filter_cons, hhead, List.find?_cons, hk, hbk, ihk]

/-- A record with key 4096 present in both fixture snapshots. -/
def hkA1 : hook :=
  { entry := { pHead := 4096, pOwner := 0, bType := TYPE_HOOK, bFlags := 0, wUniq := 0 },
    object := HOOK0, owner := none, origin := none, target := none }

/-- A record with key 8192 present only in the later fixture snapshot. -/
def hkB2 : hook :=
  { entry := { pHead := 8192, pOwner := 0, bType := TYPE_HOOK, bFlags := 0, wUniq := 0 },
    object := HOOK0, owner := none, origin := none, target := none }

/-- Claim C4, witness (the spec's Scenario 1): A holds key 4096, B holds keys 4096
and 8192 with equal fields for 4096; the events about key 8192 are exactly one
Added event for B's record. -/
theorem c4_diff_classification_witness :
    List.Pairwise hkLT [hkA1]
    ∧ List.Pairwise hkLT [hkA1, hkB2]
    ∧ (diff_hooks [hkA1] [hkA1, hkB2]).filter (fun ev => eventKey ev == 8192)
        = [diffEvent.added hkB2] := by
  refine ⟨?_, ?_, ?_⟩
  · simp [List.pairwise_cons]
  · simp [List.pairwise_cons, hkLT, hkA1, hkB2]
  · rw [c4_diff_classification [hkA1] [hkA1, hkB2]
      (by simp [List.pairwise_cons])
      (by simp [List.pairwise_cons, hkLT, hkA1, hkB2]) 8192]
    decide

end GetHooks
